import Mathlib

/-!
Shallow embedding of `record.py` from the google-maps-prometheus repository.

The script measures driving durations between fixed coordinate pairs via the
Google distance-matrix API and republishes them as Prometheus gauges.  The
external collaborator (`gmaps.distance_matrix`) is modelled as a function from
an origin/destination pair to either a transport fault (a raised exception) or
a parsed response; the four module-level gauges become a record of optional
values; `print` calls and gauge writes are recorded as an event trace; the
frozen wall-clock instant (`now = datetime.now(CET)`, read once per cycle) is
an explicit argument.
-/

namespace GmapsProm

/-- Coordinate string `B3` from the configuration block of `record.py`. -/
def B3 : String := "47.2990727660121, 11.580466819738952"

/-- Coordinate string `EKZ_WEST` from the configuration block of `record.py`. -/
def EKZ_WEST : String := "47.26437541170264, 11.375077185225967"

/-- Coordinate string `TRINS` from the configuration block of `record.py`. -/
def TRINS : String := "47.084296044327736, 11.420916988822645"

/-- A fault raised by the underlying routing call: either a transport/protocol
exception raised by `gmaps.distance_matrix` itself, or the `KeyError` /
`IndexError` raised while indexing a malformed response. -/
inductive Fault where
  | transport (msg : String)
  | malformed
deriving DecidableEq, Repr

/-- One element of a distance-matrix row: `{"status": ..., "duration_in_traffic":
{"value": ...}}`.  The `duration_in_traffic` key may be absent (`none`). -/
structure Element where
  status : String
  duration_in_traffic : Option Nat
deriving DecidableEq, Repr

/-- One row of a distance-matrix response: `{"elements": [...]}`. -/
structure Row where
  elements : List Element
deriving DecidableEq, Repr

/-- A parsed distance-matrix response: `{"rows": [...]}`. -/
structure DMResponse where
  rows : List Row
deriving DecidableEq, Repr

/-- The external `gmaps.distance_matrix` collaborator: given origin and
destination it either raises (`Except.error`) or returns a response. -/
def GMaps : Type := String → String → Except Fault DMResponse

/-- `get_travel_time(orig, dest)` from `record.py`:

    resp = gmaps.distance_matrix(orig, dest, mode="driving", departure_time="now")
    elem = resp["rows"][0]["elements"][0]
    if elem["status"] != "OK":
        return None
    return elem["duration_in_traffic"]["value"]

A fault from the call propagates; indexing an empty `rows`/`elements` list or a
missing `duration_in_traffic` key raises (modelled as `Fault.malformed`). -/
def get_travel_time (gmaps : GMaps) (orig dest : String) : Except Fault (Option Nat) :=
  match gmaps orig dest with
  | Except.error f => Except.error f
  | Except.ok resp =>
    match resp.rows.head? with
    | none => Except.error Fault.malformed
    | some row =>
      match row.elements.head? with
      | none => Except.error Fault.malformed
      | some elem =>
        if elem.status ≠ "OK" then Except.ok none
        else
          match elem.duration_in_traffic with
          | none => Except.error Fault.malformed
          | some v => Except.ok (some v)

/-- The four module-level Prometheus gauges of `record.py`, in declaration
order.  `none` models a gauge that has never been set. -/
structure Gauges where
  commute_time_seconds_to_b3 : Option Nat
  commute_time_seconds_to_ekz : Option Nat
  commute_time_seconds_trins_to_b3 : Option Nat
  commute_time_seconds_b3_to_trins : Option Nat
deriving DecidableEq, Repr

/-- The observable effects of one cycle, in program order: a probe call
(`gmaps.distance_matrix` via `get_travel_time`), a gauge write (`.set`), or a
`print` line. -/
inductive Event where
  | probe (orig dest : String)
  | set (i : Fin 4) (v : Nat)
  | print (line : String)
deriving DecidableEq, Repr

/-- Route index `i` in cycle order mapped to the gauge it writes:
0 ↦ `commute_time_seconds_to_ekz`, 1 ↦ `commute_time_seconds_to_b3`,
2 ↦ `commute_time_seconds_trins_to_b3`, 3 ↦ `commute_time_seconds_b3_to_trins`. -/
def Gauges.get (g : Gauges) : Fin 4 → Option Nat
  | 0 => g.commute_time_seconds_to_ekz
  | 1 => g.commute_time_seconds_to_b3
  | 2 => g.commute_time_seconds_trins_to_b3
  | 3 => g.commute_time_seconds_b3_to_trins

/-- Origin/destination of route `i` in cycle order, as passed to
`get_travel_time` in `update_commute_time`. -/
def routePair : Fin 4 → String × String
  | 0 => (B3, EKZ_WEST)
  | 1 => (EKZ_WEST, B3)
  | 2 => (TRINS, B3)
  | 3 => (B3, TRINS)

/-- The human-readable route label used in the success `print` of route `i`. -/
def routeLabel : Fin 4 → String
  | 0 => "B3 -> EKZ West"
  | 1 => "EKZ West -> B3"
  | 2 => "Trins -> B3"
  | 3 => "B3 -> Trins"

/-- `update_commute_time()` from `record.py`.  The frozen instant
`now = datetime.now(CET)` (read once at the top of the function) is the `now`
argument, rendered as a string exactly as the f-strings interpolate it.  The
four route blocks are embedded literally, in source order; an uncaught fault
aborts the remainder of the cycle and propagates. -/
def update_commute_time (gmaps : GMaps) (now : String) (g : Gauges) :
    List Event × Except Fault Gauges :=
  match get_travel_time gmaps B3 EKZ_WEST with
  | Except.error f => ([Event.probe B3 EKZ_WEST], Except.error f)
  | Except.ok secs_b3_to_ekz =>
    let (g, ev1) :=
      match secs_b3_to_ekz with
      | some v =>
        ({ g with commute_time_seconds_to_ekz := some v },
         [Event.probe B3 EKZ_WEST, Event.set 0 v,
          Event.print ("[" ++ now ++ "] B3 -> EKZ West: " ++ toString v ++ " seconds")])
      | none =>
        (g, [Event.probe B3 EKZ_WEST,
             Event.print ("[" ++ now ++ "] ERROR: could not fetch travel time")])
    match get_travel_time gmaps EKZ_WEST B3 with
    | Except.error f => (ev1 ++ [Event.probe EKZ_WEST B3], Except.error f)
    | Except.ok secs_ekz_to_b3 =>
      let (g, ev2) :=
        match secs_ekz_to_b3 with
        | some v =>
          ({ g with commute_time_seconds_to_b3 := some v },
           [Event.probe EKZ_WEST B3, Event.set 1 v,
            Event.print ("[" ++ now ++ "] EKZ West -> B3: " ++ toString v ++ " seconds")])
        | none =>
          (g, [Event.probe EKZ_WEST B3,
               Event.print ("[" ++ now ++ "] ERROR: could not fetch travel time")])
      match get_travel_time gmaps TRINS B3 with
      | Except.error f => (ev1 ++ ev2 ++ [Event.probe TRINS B3], Except.error f)
      | Except.ok secs_trins_to_b3 =>
        let (g, ev3) :=
          match secs_trins_to_b3 with
          | some v =>
            ({ g with commute_time_seconds_trins_to_b3 := some v },
             [Event.probe TRINS B3, Event.set 2 v,
              Event.print ("[" ++ now ++ "] Trins -> B3: " ++ toString v ++ " seconds")])
          | none =>
            (g, [Event.probe TRINS B3,
                 Event.print ("[" ++ now ++ "] ERROR: could not fetch travel time")])
        match get_travel_time gmaps B3 TRINS with
        | Except.error f => (ev1 ++ ev2 ++ ev3 ++ [Event.probe B3 TRINS], Except.error f)
        | Except.ok secs_b3_to_trins =>
          let (g, ev4) :=
            match secs_b3_to_trins with
            | some v =>
              ({ g with commute_time_seconds_b3_to_trins := some v },
               [Event.probe B3 TRINS, Event.set 3 v,
                Event.print ("[" ++ now ++ "] B3 -> Trins: " ++ toString v ++ " seconds")])
            | none =>
              (g, [Event.probe B3 TRINS,
                   Event.print ("[" ++ now ++ "] ERROR: could not fetch travel time")])
          (ev1 ++ ev2 ++ ev3 ++ ev4, Except.ok g)

/-- A civil wall-clock instant in the fixed `Europe/Vienna` zone, as the naive
field arithmetic of `datetime.replace` / `+ timedelta` sees it (`pytz` without
`normalize` does plain wall-clock arithmetic, which is what `record.py` runs). -/
structure DateTime where
  day : Nat
  hour : Nat
  minute : Nat
  second : Nat
  microsecond : Nat
deriving DecidableEq, Repr

/-- The fields are in range: a value `datetime` can actually hold. -/
def DateTime.Valid (t : DateTime) : Prop :=
  t.hour < 24 ∧ t.minute < 60 ∧ t.second < 60 ∧ t.microsecond < 1000000

instance (t : DateTime) : Decidable t.Valid := by
  unfold DateTime.Valid; infer_instance

/-- `+ timedelta(hours=1)` on a datetime with a valid hour, rolling the day. -/
def addHour (t : DateTime) : DateTime :=
  if t.hour + 1 < 24 then { t with hour := t.hour + 1 }
  else { t with day := t.day + 1, hour := 0 }

/-- `get_next_run_time()` from `record.py`, with the frozen
`now = datetime.now(CET)` as explicit argument:

    if now.hour >= 20 or now.hour < 6:
        next_run = now.replace(minute=0, second=0, microsecond=0) + timedelta(hours=1)
    else:
        if now.minute < 15: next_run = now.replace(minute=15, second=0, microsecond=0)
        elif now.minute < 30: next_run = now.replace(minute=30, second=0, microsecond=0)
        elif now.minute < 45: next_run = now.replace(minute=45, second=0, microsecond=0)
        else: next_run = now.replace(minute=0, second=0, microsecond=0) + timedelta(hours=1)
-/
def get_next_run_time (now : DateTime) : DateTime :=
  if now.hour ≥ 20 ∨ now.hour < 6 then
    addHour { now with minute := 0, second := 0, microsecond := 0 }
  else if now.minute < 15 then { now with minute := 15, second := 0, microsecond := 0 }
  else if now.minute < 30 then { now with minute := 30, second := 0, microsecond := 0 }
  else if now.minute < 45 then { now with minute := 45, second := 0, microsecond := 0 }
  else addHour { now with minute := 0, second := 0, microsecond := 0 }

/-- Total microseconds since the (civil) epoch of day 0, 00:00:00. -/
def DateTime.toMicros (t : DateTime) : Nat :=
  (((t.day * 24 + t.hour) * 60 + t.minute) * 60 + t.second) * 1000000 + t.microsecond

/-- `now.replace(minute=0, second=0, microsecond=0)`: the hour floor of `now`. -/
def hourFloor (t : DateTime) : DateTime := ⟨t.day, t.hour, 0, 0, 0⟩

/-- An instant at the top of an hour (`:00:00.000000`). -/
def HourAligned (t : DateTime) : Prop := t.minute = 0 ∧ t.second = 0 ∧ t.microsecond = 0

/-- An instant on the quarter-hour grid `{:00, :15, :30, :45}`. -/
def GridAligned (t : DateTime) : Prop := t.minute % 15 = 0 ∧ t.second = 0 ∧ t.microsecond = 0

/-- A well-formed distance-matrix response whose single element carries the
given semantic outcome: status `OK` with a duration, or `NOT_FOUND`. -/
def mkResp : Option Nat → DMResponse
  | some v => ⟨[⟨[⟨"OK", some v⟩]⟩]⟩
  | none => ⟨[⟨[⟨"NOT_FOUND", none⟩]⟩]⟩

/-- A non-faulting `gmaps` collaborator realising the per-pair semantic
outcomes `f` through well-formed responses. -/
def mkGm (f : String → String → Option Nat) : GMaps :=
  fun orig dest => Except.ok (mkResp (f orig dest))

/-- The semantic outcome `f` assigns to route `i` of the cycle. -/
def outcome (f : String → String → Option Nat) (i : Fin 4) : Option Nat :=
  f (routePair i).1 (routePair i).2

/-- New gauge cell value given this cycle's outcome and the old value:
overwritten on success, left unchanged on a no-route outcome. -/
def overwrite : Option Nat → Option Nat → Option Nat
  | some v, _ => some v
  | none, old => old

/-- The gauges after one cycle with semantic outcomes `f`, starting from `g`. -/
def gaugesAfter (f : String → String → Option Nat) (g : Gauges) : Gauges where
  commute_time_seconds_to_b3 := overwrite (outcome f 1) g.commute_time_seconds_to_b3
  commute_time_seconds_to_ekz := overwrite (outcome f 0) g.commute_time_seconds_to_ekz
  commute_time_seconds_trins_to_b3 := overwrite (outcome f 2) g.commute_time_seconds_trins_to_b3
  commute_time_seconds_b3_to_trins := overwrite (outcome f 3) g.commute_time_seconds_b3_to_trins

/-- The informational line printed on a successful measurement of route `i`. -/
def successLine (now : String) : Fin 4 → Nat → String
  | 0, v => "[" ++ now ++ "] B3 -> EKZ West: " ++ toString v ++ " seconds"
  | 1, v => "[" ++ now ++ "] EKZ West -> B3: " ++ toString v ++ " seconds"
  | 2, v => "[" ++ now ++ "] Trins -> B3: " ++ toString v ++ " seconds"
  | 3, v => "[" ++ now ++ "] B3 -> Trins: " ++ toString v ++ " seconds"

/-- The line printed on a no-route outcome (identical for every route). -/
def errorLine (now : String) : String :=
  "[" ++ now ++ "] ERROR: could not fetch travel time"

/-- The event segment route `i` contributes to a cycle's trace, given its
semantic outcome. -/
def routeTrace (now : String) (i : Fin 4) : Option Nat → List Event
  | some v => [Event.probe (routePair i).1 (routePair i).2, Event.set i v,
               Event.print (successLine now i v)]
  | none => [Event.probe (routePair i).1 (routePair i).2, Event.print (errorLine now)]

/-- The `print` lines of a trace, in order. -/
def printLines (evs : List Event) : List String :=
  evs.filterMap fun e =>
    match e with
    | Event.print s => some s
    | _ => none

/-- The probe calls of a trace (origin/destination pairs), in order. -/
def probeCalls (evs : List Event) : List (String × String) :=
  evs.filterMap fun e =>
    match e with
    | Event.probe o d => some (o, d)
    | _ => none

/-- The gauge writes of a trace, in order. -/
def setEvents (evs : List Event) : List (Fin 4 × Nat) :=
  evs.filterMap fun e =>
    match e with
    | Event.set i v => some (i, v)
    | _ => none

/-- Whether `pat` occurs as a contiguous substring of `s` (on character lists). -/
def occursIn (pat : List Char) : List Char → Bool
  | [] => pat.isEmpty
  | c :: rest => pat.isPrefixOf (c :: rest) || occursIn pat rest

/-- Error-level lines are the ones carrying the `ERROR` marker. -/
def isErrorLine (s : String) : Bool := occursIn "ERROR".toList s.toList

/-- The error-level lines of a trace, in order. -/
def errorLines (evs : List Event) : List String :=
  (printLines evs).filter isErrorLine

lemma get_travel_time_mkGm (f : String → String → Option Nat) (orig dest : String) :
    get_travel_time (mkGm f) orig dest = Except.ok (f orig dest) := by
  cases h : f orig dest <;> simp [get_travel_time, mkGm, mkResp, h]

lemma outcome0 (f : String → String → Option Nat) : outcome f 0 = f B3 EKZ_WEST := rfl

lemma outcome1 (f : String → String → Option Nat) : outcome f 1 = f EKZ_WEST B3 := rfl

lemma outcome2 (f : String → String → Option Nat) : outcome f 2 = f TRINS B3 := rfl

lemma outcome3 (f : String → String → Option Nat) : outcome f 3 = f B3 TRINS := rfl

/-- Closed form of one cycle driven by non-faulting semantic outcomes: the
trace splits into the four route segments in cycle order, and the final gauges
overwrite exactly the successful routes. -/
lemma cycle_mkGm (f : String → String → Option Nat) (now : String) (g : Gauges) :
    update_commute_time (mkGm f) now g =
      (routeTrace now 0 (outcome f 0) ++ routeTrace now 1 (outcome f 1) ++
       routeTrace now 2 (outcome f 2) ++ routeTrace now 3 (outcome f 3),
       Except.ok (gaugesAfter f g)) := by
  rcases h0 : f B3 EKZ_WEST with _ | v0 <;>
    rcases h1 : f EKZ_WEST B3 with _ | v1 <;>
      rcases h2 : f TRINS B3 with _ | v2 <;>
        rcases h3 : f B3 TRINS with _ | v3 <;>
  simp [update_commute_time, get_travel_time_mkGm, gaugesAfter, overwrite, routeTrace,
        routePair, successLine, errorLine, outcome0, outcome1, outcome2, outcome3,
        h0, h1, h2, h3]

lemma printLines_append (a b : List Event) :
    printLines (a ++ b) = printLines a ++ printLines b :=
  List.filterMap_append a b _

lemma probeCalls_append (a b : List Event) :
    probeCalls (a ++ b) = probeCalls a ++ probeCalls b :=
  List.filterMap_append a b _

lemma setEvents_append (a b : List Event) :
    setEvents (a ++ b) = setEvents a ++ setEvents b :=
  List.filterMap_append a b _

lemma printLines_routeTrace_some (now : String) (i : Fin 4) (v : Nat) :
    printLines (routeTrace now i (some v)) = [successLine now i v] := rfl

lemma printLines_routeTrace_none (now : String) (i : Fin 4) :
    printLines (routeTrace now i none) = [errorLine now] := rfl

lemma probeCalls_routeTrace (now : String) (i : Fin 4) (o : Option Nat) :
    probeCalls (routeTrace now i o) = [routePair i] := by
  cases o <;> rfl

lemma setEvents_routeTrace_some (now : String) (i : Fin 4) (v : Nat) :
    setEvents (routeTrace now i (some v)) = [(i, v)] := rfl

lemma setEvents_routeTrace_none (now : String) (i : Fin 4) :
    setEvents (routeTrace now i none) = [] := rfl

lemma gaugesAfter_get (f : String → String → Option Nat) (g : Gauges) (j : Fin 4) :
    (gaugesAfter f g).get j = overwrite (outcome f j) (g.get j) := by
  fin_cases j <;> rfl

lemma set_mem_routeTrace {now : String} {i j : Fin 4} {o : Option Nat} {v : Nat}
    (h : Event.set i v ∈ routeTrace now j o) : i = j ∧ o = some v := by
  cases o with
  | none => simp [routeTrace] at h
  | some w =>
    simp [routeTrace] at h
    simp [h]

lemma errorLine_timestamp (now : String) :
    ∃ rest : String, errorLine now = "[" ++ now ++ rest :=
  ⟨"] ERROR: could not fetch travel time", rfl⟩

lemma successLine_timestamp (now : String) (i : Fin 4) (v : Nat) :
    ∃ rest : String, successLine now i v = "[" ++ now ++ rest := by
  fin_cases i
  · exact ⟨"] B3 -> EKZ West: " ++ (toString v ++ " seconds"),
      by simp [successLine, String.append_assoc]⟩
  · exact ⟨"] EKZ West -> B3: " ++ (toString v ++ " seconds"),
      by simp [successLine, String.append_assoc]⟩
  · exact ⟨"] Trins -> B3: " ++ (toString v ++ " seconds"),
      by simp [successLine, String.append_assoc]⟩
  · exact ⟨"] B3 -> Trins: " ++ (toString v ++ " seconds"),
      by simp [successLine, String.append_assoc]⟩

lemma printLines_routeTrace_timestamp (now : String) (i : Fin 4) (o : Option Nat) :
    ∀ line ∈ printLines (routeTrace now i o), ∃ rest : String, line = "[" ++ now ++ rest := by
  cases o with
  | none =>
    intro line h
    rw [printLines_routeTrace_none] at h
    simp at h
    subst h
    exact errorLine_timestamp now
  | some v =>
    intro line h
    rw [printLines_routeTrace_some] at h
    simp at h
    subst h
    exact successLine_timestamp now i v

/-- **C2.**  One cycle driven by any assignment of per-route semantic outcomes
attempts all four routes in order (no early exit); every route whose probe
returns a duration ends the cycle with its gauge set to exactly that duration,
its trace segment carrying exactly the one informational line; and on the
4-route catalog with outcomes `[1200, 1500, none, 2100]` the cycle performs
exactly 3 gauge writes and logs exactly 1 error line. -/
theorem cycle_attempts_all_and_records_successes
    (f : String → String → Option Nat) (now : String) (g : Gauges) :
    probeCalls (update_commute_time (mkGm f) now g).1 =
      [routePair 0, routePair 1, routePair 2, routePair 3]
  ∧ (update_commute_time (mkGm f) now g).1 =
      routeTrace now 0 (outcome f 0) ++ routeTrace now 1 (outcome f 1) ++
      routeTrace now 2 (outcome f 2) ++ routeTrace now 3 (outcome f 3)
  ∧ (∀ i : Fin 4, ∀ v : Nat, outcome f i = some v →
      ∃ g', (update_commute_time (mkGm f) now g).2 = Except.ok g' ∧ g'.get i = some v)
  ∧ (∀ i : Fin 4, ∀ v : Nat,
      printLines (routeTrace now i (some v)) = [successLine now i v])
  ∧ (setEvents (update_commute_time
        (mkGm fun o d => if o = B3 ∧ d = EKZ_WEST then some 1200
          else if o = EKZ_WEST then some 1500
          else if o = TRINS then none else some 2100)
        "2024-01-15 10:30:00" ⟨none, none, none, none⟩).1).length = 3
  ∧ (errorLines (update_commute_time
        (mkGm fun o d => if o = B3 ∧ d = EKZ_WEST then some 1200
          else if o = EKZ_WEST then some 1500
          else if o = TRINS then none else some 2100)
        "2024-01-15 10:30:00" ⟨none, none, none, none⟩).1).length = 1 := by
  refine ⟨?_, ?_, ?_, ?_, by decide, by decide⟩
  · rw [cycle_mkGm]
    simp [probeCalls_append, probeCalls_routeTrace]
  · rw [cycle_mkGm]
  · intro i v h
    refine ⟨gaugesAfter f g, by rw [cycle_mkGm], ?_⟩
    rw [gaugesAfter_get, h]; rfl
  · intro i v
    exact printLines_routeTrace_some now i v

/-- Witness for C2 at a concrete outcome assignment. -/
theorem cycle_attempts_all_and_records_successes_witness :
    outcome (fun _ _ => some 7) 0 = some 7
  ∧ ∃ g', (update_commute_time (mkGm fun _ _ => some 7) "T"
        ⟨none, none, none, none⟩).2 = Except.ok g' ∧ g'.get 0 = some 7 :=
  ⟨rfl, (cycle_attempts_all_and_records_successes (fun _ _ => some 7) "T"
    ⟨none, none, none, none⟩).2.2.1 0 7 rfl⟩

/-- **C3 counterexample.**  With route 0 (`B3 -> EKZ West`) the only failing
route, the cycle emits exactly one error line, and that line mentions neither
the route's label nor even `B3`: the claim that the error line mentions the
route name is false on the code. -/
theorem error_line_omits_route_name_cex :
    errorLines (update_commute_time
        (mkGm fun o d => if o = B3 ∧ d = EKZ_WEST then none else some 1111)
        "2024-01-15 10:30:00" ⟨some 999, some 999, some 999, some 999⟩).1 =
      [errorLine "2024-01-15 10:30:00"]
  ∧ occursIn (routeLabel 0).toList (errorLine "2024-01-15 10:30:00").toList = false
  ∧ occursIn "B3".toList (errorLine "2024-01-15 10:30:00").toList = false := by
  decide

/-- **C3 (amended).**  A no-route outcome for route `i` leaves `i`'s gauge
unchanged (so a set gauge never reverts to unset), performs no gauge write for
`i`, and `i`'s trace segment is exactly one error-level line; the line carries
the cycle timestamp but is the fixed text `ERROR: could not fetch travel
time`, with no route-specific content. -/
theorem no_route_leaves_gauge_and_logs_once
    (f : String → String → Option Nat) (now : String) (g : Gauges) (i : Fin 4)
    (h : outcome f i = none) :
    ∃ g', (update_commute_time (mkGm f) now g).2 = Except.ok g'
      ∧ g'.get i = g.get i
      ∧ ((g.get i).isSome → (g'.get i).isSome)
      ∧ (∀ v : Nat, Event.set i v ∉ (update_commute_time (mkGm f) now g).1)
      ∧ printLines (routeTrace now i (outcome f i)) = [errorLine now]
      ∧ (∃ rest : String, errorLine now = "[" ++ now ++ rest) := by
  have hget : (gaugesAfter f g).get i = g.get i := by
    rw [gaugesAfter_get, h]
    rfl
  refine ⟨gaugesAfter f g, by rw [cycle_mkGm], hget, by rw [hget]; exact id, ?_, ?_,
    errorLine_timestamp now⟩
  · intro v hv
    rw [cycle_mkGm] at hv
    simp only [List.mem_append] at hv
    rcases hv with ((h' | h') | h') | h' <;>
      · obtain ⟨rfl, ho⟩ := set_mem_routeTrace h'
        rw [h] at ho
        cases ho
  · rw [h]
    exact printLines_routeTrace_none now i

/-- Witness for the amended C3 at a concrete failing route. -/
theorem no_route_leaves_gauge_and_logs_once_witness :
    outcome (fun o _ => if o = TRINS then none else some 5) 2 = none
  ∧ ∃ g', (update_commute_time (mkGm fun o _ => if o = TRINS then none else some 5)
        "T" ⟨some 9, some 9, some 9, some 9⟩).2 = Except.ok g'
      ∧ g'.get 2 = Gauges.get ⟨some 9, some 9, some 9, some 9⟩ 2
      ∧ ((Gauges.get ⟨some 9, some 9, some 9, some 9⟩ 2).isSome → (g'.get 2).isSome)
      ∧ (∀ v : Nat, Event.set 2 v ∉ (update_commute_time
            (mkGm fun o _ => if o = TRINS then none else some 5)
            "T" ⟨some 9, some 9, some 9, some 9⟩).1)
      ∧ printLines (routeTrace "T" 2
            (outcome (fun o _ => if o = TRINS then none else some 5) 2)) = [errorLine "T"]
      ∧ (∃ rest : String, errorLine "T" = "[" ++ "T" ++ rest) :=
  ⟨by decide, no_route_leaves_gauge_and_logs_once
    (fun o _ => if o = TRINS then none else some 5) "T"
    ⟨some 9, some 9, some 9, some 9⟩ 2 (by decide)⟩

/-- **C4.**  The probe forwards any fault raised by the underlying call; a
cycle over purely semantic outcomes (well-formed responses, possibly
no-route) never raises; and a fault at any of the four call sites aborts the
cycle with exactly that fault. -/
theorem cycle_fault_propagation :
    (∀ (gm : GMaps) (orig dest : String) (fl : Fault),
        gm orig dest = Except.error fl →
        get_travel_time gm orig dest = Except.error fl)
  ∧ (∀ (f : String → String → Option Nat) (now : String) (g : Gauges),
        (update_commute_time (mkGm f) now g).2 = Except.ok (gaugesAfter f g))
  ∧ (∀ (gm : GMaps) (now : String) (g : Gauges) (fl : Fault),
        (get_travel_time gm B3 EKZ_WEST = Except.error fl →
          (update_commute_time gm now g).2 = Except.error fl)
      ∧ (∀ o0 : Option Nat, get_travel_time gm B3 EKZ_WEST = Except.ok o0 →
          get_travel_time gm EKZ_WEST B3 = Except.error fl →
          (update_commute_time gm now g).2 = Except.error fl)
      ∧ (∀ o0 o1 : Option Nat, get_travel_time gm B3 EKZ_WEST = Except.ok o0 →
          get_travel_time gm EKZ_WEST B3 = Except.ok o1 →
          get_travel_time gm TRINS B3 = Except.error fl →
          (update_commute_time gm now g).2 = Except.error fl)
      ∧ (∀ o0 o1 o2 : Option Nat, get_travel_time gm B3 EKZ_WEST = Except.ok o0 →
          get_travel_time gm EKZ_WEST B3 = Except.ok o1 →
          get_travel_time gm TRINS B3 = Except.ok o2 →
          get_travel_time gm B3 TRINS = Except.error fl →
          (update_commute_time gm now g).2 = Except.error fl)) := by
  refine ⟨?_, ?_, ?_⟩
  · intro gm orig dest fl h
    unfold get_travel_time
    rw [h]
  · intro f now g
    rw [cycle_mkGm]
  · intro gm now g fl
    refine ⟨?_, ?_, ?_, ?_⟩
    · intro h0
      simp [update_commute_time, h0]
    · intro o0 h0 h1
      rcases o0 with _ | v0 <;> simp [update_commute_time, h0, h1]
    · intro o0 o1 h0 h1 h2
      rcases o0 with _ | v0 <;> rcases o1 with _ | v1 <;>
        simp [update_commute_time, h0, h1, h2]
    · intro o0 o1 o2 h0 h1 h2 h3
      rcases o0 with _ | v0 <;> rcases o1 with _ | v1 <;> rcases o2 with _ | v2 <;>
        simp [update_commute_time, h0, h1, h2, h3]

/-- Witness for C4: a transport fault on the first call aborts the cycle with
that fault, while an all-no-route cycle returns normally. -/
theorem cycle_fault_propagation_witness :
    (fun _ _ => Except.error (Fault.transport "boom") : GMaps) B3 EKZ_WEST =
      Except.error (Fault.transport "boom")
  ∧ (update_commute_time (fun _ _ => Except.error (Fault.transport "boom")) "T"
      ⟨none, none, none, none⟩).2 = Except.error (Fault.transport "boom")
  ∧ (update_commute_time (mkGm fun _ _ => none) "T" ⟨none, none, none, none⟩).2 =
      Except.ok (gaugesAfter (fun _ _ => none) ⟨none, none, none, none⟩) :=
  ⟨rfl,
   (cycle_fault_propagation.2.2 (fun _ _ => Except.error (Fault.transport "boom")) "T"
      ⟨none, none, none, none⟩ (Fault.transport "boom")).1
     (cycle_fault_propagation.1 (fun _ _ => Except.error (Fault.transport "boom"))
       B3 EKZ_WEST (Fault.transport "boom") rfl),
   cycle_fault_propagation.2.1 (fun _ _ => none) "T" ⟨none, none, none, none⟩⟩

/-- **C5.**  On a well-formed response the probe returns the integer seconds
of `duration_in_traffic` when the first route-element's status is `OK`, and
returns `none` (absent) when the element status is anything else. -/
theorem get_travel_time_parses_element
    (resp : DMResponse) (row : Row) (elem : Element) (orig dest : String)
    (hrow : resp.rows.head? = some row)
    (helem : row.elements.head? = some elem)
    (hwf : elem.status = "OK" → elem.duration_in_traffic.isSome) :
    get_travel_time (fun _ _ => Except.ok resp) orig dest =
      Except.ok (if elem.status = "OK" then elem.duration_in_traffic else none) := by
  by_cases hs : elem.status = "OK"
  · obtain ⟨v, hv⟩ := Option.isSome_iff_exists.mp (hwf hs)
    simp [get_travel_time, hrow, helem, hs, hv]
  · simp [get_travel_time, hrow, helem, hs]

/-- Witness for C5: the mocked `OK`/1800 response of the unit test parses to
1800 seconds, and a `NOT_FOUND` element parses to absent. -/
theorem get_travel_time_parses_element_witness :
    (⟨[⟨[⟨"OK", some 1800⟩]⟩]⟩ : DMResponse).rows.head? = some ⟨[⟨"OK", some 1800⟩]⟩
  ∧ get_travel_time (fun _ _ => Except.ok ⟨[⟨[⟨"OK", some 1800⟩]⟩]⟩) "origin" "destination" =
      Except.ok (if (⟨"OK", some 1800⟩ : Element).status = "OK"
        then (⟨"OK", some 1800⟩ : Element).duration_in_traffic else none)
  ∧ get_travel_time (fun _ _ => Except.ok ⟨[⟨[⟨"NOT_FOUND", none⟩]⟩]⟩) "origin" "destination" =
      Except.ok (if (⟨"NOT_FOUND", none⟩ : Element).status = "OK"
        then (⟨"NOT_FOUND", none⟩ : Element).duration_in_traffic else none) :=
  ⟨rfl,
   get_travel_time_parses_element ⟨[⟨[⟨"OK", some 1800⟩]⟩]⟩ ⟨[⟨"OK", some 1800⟩]⟩
     ⟨"OK", some 1800⟩ "origin" "destination" rfl rfl (by decide),
   get_travel_time_parses_element ⟨[⟨[⟨"NOT_FOUND", none⟩]⟩]⟩ ⟨[⟨"NOT_FOUND", none⟩]⟩
     ⟨"NOT_FOUND", none⟩ "origin" "destination" rfl rfl (by decide)⟩

/-- **C6.**  A successful probe result for route `i` sets `i`'s gauge to the
measured value; every other gauge is exactly what its own outcome dictates —
in particular, other routes with no successful outcome keep their previous
value, so `i`'s write touches only `i`'s gauge. -/
theorem success_writes_only_own_gauge
    (f : String → String → Option Nat) (now : String) (g : Gauges) (i : Fin 4) (v : Nat)
    (h : outcome f i = some v) :
    ∃ g', (update_commute_time (mkGm f) now g).2 = Except.ok g'
      ∧ g'.get i = some v
      ∧ (∀ j : Fin 4, j ≠ i → g'.get j = overwrite (outcome f j) (g.get j))
      ∧ (∀ j : Fin 4, j ≠ i → outcome f j = none → g'.get j = g.get j) := by
  refine ⟨gaugesAfter f g, by rw [cycle_mkGm], ?_, ?_, ?_⟩
  · rw [gaugesAfter_get, h]
    rfl
  · intro j _
    exact gaugesAfter_get f g j
  · intro j _ hj
    rw [gaugesAfter_get, hj]
    rfl

/-- Witness for C6: only route 1 succeeds; its gauge takes the new value and
the three other gauges keep their previous values. -/
theorem success_writes_only_own_gauge_witness :
    outcome (fun o d => if o = EKZ_WEST ∧ d = B3 then some 42 else none) 1 = some 42
  ∧ ∃ g', (update_commute_time
        (mkGm fun o d => if o = EKZ_WEST ∧ d = B3 then some 42 else none)
        "T" ⟨some 1, some 2, some 3, some 4⟩).2 = Except.ok g'
      ∧ g'.get 1 = some 42
      ∧ (∀ j : Fin 4, j ≠ 1 → g'.get j =
          overwrite (outcome (fun o d => if o = EKZ_WEST ∧ d = B3 then some 42 else none) j)
            (Gauges.get ⟨some 1, some 2, some 3, some 4⟩ j))
      ∧ (∀ j : Fin 4, j ≠ 1 →
          outcome (fun o d => if o = EKZ_WEST ∧ d = B3 then some 42 else none) j = none →
          g'.get j = Gauges.get ⟨some 1, some 2, some 3, some 4⟩ j) :=
  ⟨by decide, success_writes_only_own_gauge
    (fun o d => if o = EKZ_WEST ∧ d = B3 then some 42 else none) "T"
    ⟨some 1, some 2, some 3, some 4⟩ 1 42 (by decide)⟩

/-- **C7 counterexample.**  The cycle takes no route catalog: its probe list is
the hardcoded four-pair sequence, so for a concrete 2-route catalog the cycle
does not attempt the catalog's routes — it is not generic in the catalog. -/
theorem cycle_probe_list_hardcoded_cex :
    probeCalls (update_commute_time (mkGm fun _ _ => some 1) "T"
        ⟨none, none, none, none⟩).1 =
      [(B3, EKZ_WEST), (EKZ_WEST, B3), (TRINS, B3), (B3, TRINS)]
  ∧ (probeCalls (update_commute_time (mkGm fun _ _ => some 1) "T"
        ⟨none, none, none, none⟩).1).length = 4
  ∧ probeCalls (update_commute_time (mkGm fun _ _ => some 1) "T"
        ⟨none, none, none, none⟩).1 ≠ [(TRINS, EKZ_WEST), (EKZ_WEST, TRINS)] := by
  decide

/-- **C7 (amended).**  The update cycle hardcodes exactly four probe calls in a
fixed order; for every outcome assignment all four hardcoded routes are
attempted each cycle, but no catalog parameter exists to generalise over. -/
theorem cycle_probe_list_fixed
    (f : String → String → Option Nat) (now : String) (g : Gauges) :
    probeCalls (update_commute_time (mkGm f) now g).1 =
      [routePair 0, routePair 1, routePair 2, routePair 3] := by
  rw [cycle_mkGm]
  simp [probeCalls_append, probeCalls_routeTrace]

/-- **C1.**  The scheduler follows the two-mode rule.  Night mode (local hour
≥ 20 or < 6): the next run is the top of the next hour, `floor(now, 1h) + 1h`.
Day mode (hour in `[6, 20)`): the next run is the least quarter-hour boundary
(`:00`, `:15`, `:30`, `:45`) strictly after the current time — which rolls to
the next hour's `:00` when none remains in the current hour.  The five concrete
instances of the spec hold:  `20:00:00 ↦ 21:00:00`, `05:59:59 ↦ 06:00:00`,
`06:00:00 ↦ 06:15:00`, `10:05:00 ↦ 10:15:00`, `23:30:00 ↦ next day 00:00:00`. -/
theorem next_run_two_mode_rule (now : DateTime) (hv : now.Valid) :
    ((now.hour ≥ 20 ∨ now.hour < 6) →
      HourAligned (get_next_run_time now) ∧
      (get_next_run_time now).toMicros = (hourFloor now).toMicros + 3600000000)
  ∧ (6 ≤ now.hour → now.hour < 20 →
      GridAligned (get_next_run_time now) ∧
      now.toMicros < (get_next_run_time now).toMicros ∧
      (∀ t : DateTime, t.Valid → GridAligned t → now.toMicros < t.toMicros →
        (get_next_run_time now).toMicros ≤ t.toMicros))
  ∧ get_next_run_time ⟨0, 20, 0, 0, 0⟩ = ⟨0, 21, 0, 0, 0⟩
  ∧ get_next_run_time ⟨0, 5, 59, 59, 0⟩ = ⟨0, 6, 0, 0, 0⟩
  ∧ get_next_run_time ⟨0, 6, 0, 0, 0⟩ = ⟨0, 6, 15, 0, 0⟩
  ∧ get_next_run_time ⟨0, 10, 5, 0, 0⟩ = ⟨0, 10, 15, 0, 0⟩
  ∧ get_next_run_time ⟨0, 23, 30, 0, 0⟩ = ⟨1, 0, 0, 0, 0⟩ := by
  obtain ⟨hh, hm, hs, hmu⟩ := hv
  refine ⟨?_, ?_, by decide, by decide, by decide, by decide, by decide⟩
  · intro hnight
    simp only [get_next_run_time, if_pos hnight, addHour, hourFloor, HourAligned,
      DateTime.toMicros]
    split_ifs <;> simp_all <;> omega
  · intro h6 h20
    have hday : ¬(now.hour ≥ 20 ∨ now.hour < 6) := by omega
    simp only [get_next_run_time, if_neg hday, addHour, GridAligned, DateTime.toMicros]
    split_ifs with h15 h30 h45 h24 <;>
      refine ⟨by simp_all, by simp_all; omega, ?_⟩ <;>
      · intro t ⟨t1, t2, t3, t4⟩ ⟨tg1, tg2, tg3⟩ hlt
        simp only [DateTime.toMicros] at *
        simp_all
        omega

/-- Witness for C1 at the concrete day-mode instant 10:05:00. -/
theorem next_run_two_mode_rule_witness :
    DateTime.Valid ⟨0, 10, 5, 0, 0⟩
  ∧ GridAligned (get_next_run_time ⟨0, 10, 5, 0, 0⟩)
  ∧ DateTime.toMicros ⟨0, 10, 5, 0, 0⟩ < (get_next_run_time ⟨0, 10, 5, 0, 0⟩).toMicros :=
  ⟨by decide,
   ((next_run_two_mode_rule ⟨0, 10, 5, 0, 0⟩ (by decide)).2.1 (by decide) (by decide)).1,
   ((next_run_two_mode_rule ⟨0, 10, 5, 0, 0⟩ (by decide)).2.1 (by decide) (by decide)).2.1⟩

/-- **C9.**  For every valid current instant the computed next run is valid,
strictly later, and grid-aligned (second and microsecond 0, minute in
`{0, 15, 30, 45}`); in night mode its minute is 0 and it is at most one hour
ahead, and in day mode it is at most fifteen minutes ahead. -/
theorem next_run_strictly_later_grid_aligned (now : DateTime) (hv : now.Valid) :
    (get_next_run_time now).Valid
  ∧ now.toMicros < (get_next_run_time now).toMicros
  ∧ (get_next_run_time now).second = 0
  ∧ (get_next_run_time now).microsecond = 0
  ∧ ((get_next_run_time now).minute = 0 ∨ (get_next_run_time now).minute = 15 ∨
     (get_next_run_time now).minute = 30 ∨ (get_next_run_time now).minute = 45)
  ∧ ((now.hour ≥ 20 ∨ now.hour < 6) →
       (get_next_run_time now).minute = 0 ∧
       (get_next_run_time now).toMicros ≤ now.toMicros + 3600000000)
  ∧ (6 ≤ now.hour → now.hour < 20 →
       (get_next_run_time now).toMicros ≤ now.toMicros + 900000000) := by
  obtain ⟨hh, hm, hs, hmu⟩ := hv
  simp only [get_next_run_time, addHour, DateTime.Valid, DateTime.toMicros]
  split_ifs <;> simp_all <;> omega

/-- Witness for C9 at the concrete night-mode instant 22:30:15. -/
theorem next_run_strictly_later_grid_aligned_witness :
    DateTime.Valid ⟨0, 22, 30, 15, 0⟩
  ∧ ((get_next_run_time ⟨0, 22, 30, 15, 0⟩).Valid
  ∧ DateTime.toMicros ⟨0, 22, 30, 15, 0⟩ < (get_next_run_time ⟨0, 22, 30, 15, 0⟩).toMicros
  ∧ (get_next_run_time ⟨0, 22, 30, 15, 0⟩).second = 0
  ∧ (get_next_run_time ⟨0, 22, 30, 15, 0⟩).microsecond = 0
  ∧ ((get_next_run_time ⟨0, 22, 30, 15, 0⟩).minute = 0 ∨
     (get_next_run_time ⟨0, 22, 30, 15, 0⟩).minute = 15 ∨
     (get_next_run_time ⟨0, 22, 30, 15, 0⟩).minute = 30 ∨
     (get_next_run_time ⟨0, 22, 30, 15, 0⟩).minute = 45)
  ∧ (((⟨0, 22, 30, 15, 0⟩ : DateTime).hour ≥ 20 ∨ (⟨0, 22, 30, 15, 0⟩ : DateTime).hour < 6) →
       (get_next_run_time ⟨0, 22, 30, 15, 0⟩).minute = 0 ∧
       (get_next_run_time ⟨0, 22, 30, 15, 0⟩).toMicros ≤
         DateTime.toMicros ⟨0, 22, 30, 15, 0⟩ + 3600000000)
  ∧ (6 ≤ (⟨0, 22, 30, 15, 0⟩ : DateTime).hour → (⟨0, 22, 30, 15, 0⟩ : DateTime).hour < 20 →
       (get_next_run_time ⟨0, 22, 30, 15, 0⟩).toMicros ≤
         DateTime.toMicros ⟨0, 22, 30, 15, 0⟩ + 900000000)) :=
  ⟨by decide, next_run_strictly_later_grid_aligned ⟨0, 22, 30, 15, 0⟩ (by decide)⟩

/-- **C8.**  The next-run computation is a pure function of the frozen current
time: evaluating it twice with the same current instant yields the same
next-run instant.  (The embedding makes the clock an explicit argument, so
determinism is immediate from functionality.) -/
theorem next_run_deterministic (t₁ t₂ : DateTime) (h : t₁ = t₂) :
    get_next_run_time t₁ = get_next_run_time t₂ := by
  rw [h]

/-- Witness for C8 at a concrete frozen instant. -/
theorem next_run_deterministic_witness :
    (⟨0, 14, 20, 0, 0⟩ : DateTime) = ⟨0, 14, 20, 0, 0⟩
  ∧ get_next_run_time ⟨0, 14, 20, 0, 0⟩ = get_next_run_time ⟨0, 14, 20, 0, 0⟩ :=
  ⟨rfl, next_run_deterministic ⟨0, 14, 20, 0, 0⟩ ⟨0, 14, 20, 0, 0⟩ rfl⟩

/-- **C10.**  One cycle issues exactly four sequential probe calls in the
fixed order B3→EKZ West, EKZ West→B3, Trins→B3, B3→Trins, regardless of the
per-route outcomes, and every log line of the cycle is prefixed with the one
frozen timestamp read at the start of the cycle. -/
theorem cycle_single_timestamp_fixed_probe_order
    (f : String → String → Option Nat) (now : String) (g : Gauges) :
    probeCalls (update_commute_time (mkGm f) now g).1 =
      [(B3, EKZ_WEST), (EKZ_WEST, B3), (TRINS, B3), (B3, TRINS)]
  ∧ ∀ line ∈ printLines (update_commute_time (mkGm f) now g).1,
      ∃ rest : String, line = "[" ++ now ++ rest := by
  constructor
  · rw [cycle_mkGm]
    simp [probeCalls_append, probeCalls_routeTrace, routePair]
  · intro line hline
    rw [cycle_mkGm] at hline
    simp only [printLines_append, List.mem_append] at hline
    rcases hline with ((h' | h') | h') | h' <;>
      exact printLines_routeTrace_timestamp now _ _ line h'

/-- Witness for C10 at a concrete outcome assignment and timestamp. -/
theorem cycle_single_timestamp_fixed_probe_order_witness :
    errorLine "2024-01-15 22:00:00" ∈
      printLines (update_commute_time (mkGm fun _ _ => none)
        "2024-01-15 22:00:00" ⟨none, none, none, none⟩).1
  ∧ ∃ rest : String, errorLine "2024-01-15 22:00:00" =
      "[" ++ "2024-01-15 22:00:00" ++ rest :=
  ⟨by decide,
   (cycle_single_timestamp_fixed_probe_order (fun _ _ => none) "2024-01-15 22:00:00"
      ⟨none, none, none, none⟩).2 (errorLine "2024-01-15 22:00:00") (by decide)⟩

end GmapsProm
